import Mathlib

/-!
Verification development for the SIP OPTIONS monitor.

The repository periodically sends SIP OPTIONS requests over UDP to a fixed
list of target IP addresses, classifies each response, tracks a per-target
status record `{state, since}`, and periodically emails / sends to Telegram a
report of targets currently in the `failed` state.

This file gives a shallow embedding of the monitor's pure logic:

* `create_options_message` / `make_sip_identifiers` — the SIP OPTIONS message
  builder (`create_options_message` in `sip_monitor_en.py`), with the stream
  of `uuid.uuid4()` string draws modelled as a function `Nat → String`;
* `send_options_classify` — the response-classification portion of
  `send_options` (the value of `current_run_status` at the end of the
  try/except/finally block), with the network interaction modelled by the
  `ProbeNetResult` type;
* `send_options_update` — the status-dictionary update at the tail of
  `send_options`; the logged STATUS CHANGE record is surfaced as an optional
  `TransitionEvent` value;
* `monitor_report_step` — the report block of `monitor_loop`, including the
  fire condition, the report-line construction and the alert-sink calls;
* `send_email_alert` / `send_telegram_alert` / `notify_alert` — the alert
  sinks of `email_utils.py` / `telegram_utils.py`, with the fallible
  transport (SMTP session, HTTP POST) modelled as an `Except` value and the
  try/except wrappers made explicit;
* `wait_time` — the inter-cycle sleep computation of `monitor_loop`;
* namespace `Ru` — the same functions translated from `sip_monitor_ru.py`.

Timestamps (`time.time()` values) are modelled as integers; durations use
`Int.fdiv`/`Int.fmod`, which agree with Python's floor-division `divmod` on
integral values.  Calendar rendering via `time.strftime` is abstracted to the
numeric timestamp inside report lines (no claim depends on the calendar
text).  Byte strings are modelled by their decoded text: `bytes.decode`
with `errors='ignore'` always succeeds, so a received datagram is modelled
by its source address and decoded payload.
-/

namespace SipMonitor

/-! ## String helpers (Python semantics) -/

/-- Checks whether `pat` occurs as a contiguous substring of a character
list; `strContains s pat` below is Python's `pat in s`. -/
def containsSub (pat : List Char) : List Char → Bool
  | [] => pat.isPrefixOf []
  | c :: rest => pat.isPrefixOf (c :: rest) || containsSub pat rest

/-- Python's `pat in s` substring test. -/
def strContains (s pat : String) : Bool :=
  containsSub pat.data s.data

/-- The line-boundary characters of Python's `str.splitlines`. -/
def isPyLineBreak (c : Char) : Bool :=
  c = '\n' || c = '\r' || c = Char.ofNat 0x0b || c = Char.ofNat 0x0c ||
  c = Char.ofNat 0x1c || c = Char.ofNat 0x1d || c = Char.ofNat 0x1e ||
  c = Char.ofNat 0x85 || c = Char.ofNat 0x2028 || c = Char.ofNat 0x2029

/-- For a nonempty string `s`, `splitlinesFirst s` is Python's
`s.splitlines()[0]`: the characters up to the first line boundary. -/
def splitlinesFirst (s : String) : String :=
  String.mk (s.data.takeWhile (fun c => !(isPyLineBreak c)))

/-! ## Configuration constants (the Settings section of the scripts) -/

def TARGET_IPS : List String := ["172.16.31.144", "192.168.13.101"]

def SOURCE_IP : String := "192.168.1.100"

def SOURCE_PORT : Nat := 5084

def TARGET_PORT : Nat := 5060

def INTERVAL : Int := 10

def USER_AGENT : String := "Python SIP Monitor"

def RECEIVE_TIMEOUT : Int := 2

/-- Default of `REPORT_INTERVAL_SECONDS` (the environment override is
startup configuration, not logic). -/
def REPORT_INTERVAL_SECONDS : Int := 3600

def ENABLE_EMAIL_ALERTS : Bool := true

def ENABLE_TELEGRAM_ALERTS : Bool := true

/-! ## Probe Message Builder (`create_options_message`) -/

/-- The three per-request identifiers drawn at the top of
`create_options_message`. -/
structure SipIdentifiers where
  callId : String
  branch : String
  tag : String
deriving Repr, DecidableEq

/-- The identifier draws of the `k`-th invocation of
`create_options_message`.  `uuidSupply` is the stream of `str(uuid.uuid4())`
results in draw order; one invocation draws three in the order
call-id, branch, tag, so invocation `k` consumes indices
`3*k`, `3*k+1`, `3*k+2`.  Python's `[:8]` is `String.take 8`. -/
def make_sip_identifiers (uuidSupply : Nat → String) (k : Nat) : SipIdentifiers :=
  { callId := uuidSupply (3 * k),
    branch := "z9hG4bK" ++ (uuidSupply (3 * k + 1)).take 8,
    tag := (uuidSupply (3 * k + 2)).take 8 }

/-- The SIP OPTIONS request text built by `create_options_message`
(`sip_monitor_en.py`, lines 70-84); the wire bytes are its UTF-8
encoding. -/
def create_options_message (ids : SipIdentifiers) (target_ip : String)
    (target_port : Nat) (source_ip : String) (source_port : Nat) : String :=
  "OPTIONS sip:monitor@" ++ target_ip ++ ":" ++ toString target_port ++ " SIP/2.0\r\n" ++
  "Via: SIP/2.0/UDP " ++ source_ip ++ ":" ++ toString source_port ++
    ";branch=" ++ ids.branch ++ ";rport\r\n" ++
  "Max-Forwards: 70\r\n" ++
  "From: <sip:monitor@" ++ source_ip ++ ":" ++ toString source_port ++ ">;tag=" ++ ids.tag ++ "\r\n" ++
  "To: <sip:monitor@" ++ target_ip ++ ":" ++ toString target_port ++ ">\r\n" ++
  "Contact: <sip:monitor@" ++ source_ip ++ ":" ++ toString source_port ++ ">\r\n" ++
  "Call-ID: " ++ ids.callId ++ "\r\n" ++
  "CSeq: 1 OPTIONS\r\n" ++
  "User-Agent: " ++ USER_AGENT ++ "\r\n" ++
  "Accept: application/sdp\r\n" ++
  "Content-Length: 0\r\n" ++
  "\r\n"

/-! ## Probe Executor (`send_options`, classification part) -/

/-- Outcome of the network interaction inside one `send_options` run:

* `sendError` — `socket.gaierror`, `OSError` or any other exception during
  socket creation or `sendto` (outer except clauses, lines 146-154);
* `timeout` — `socket.timeout` on `recvfrom` (line 139);
* `recvError` — any other exception while receiving (line 142);
* `datagram addr payload` — a datagram arrived from source address `addr`
  whose bytes decode (with `errors='ignore'`, which never fails) to
  `payload`. -/
inductive ProbeNetResult where
  | sendError
  | timeout
  | recvError
  | datagram (addr : String) (payload : String)
deriving Repr, DecidableEq

/-- The value of `current_run_status` at the end of one `send_options` run
(`sip_monitor_en.py`, lines 100-157): every error path yields `"failed"`;
a datagram from the probed address yields `"ok"` exactly when the first
line of the decoded text contains `"SIP/2.0 200 OK"` (an empty payload
substitutes the `"EMPTY RESPONSE"` placeholder, which fails the test). -/
def send_options_classify (target_ip : String) : ProbeNetResult → String
  | ProbeNetResult.sendError => "failed"
  | ProbeNetResult.timeout => "failed"
  | ProbeNetResult.recvError => "failed"
  | ProbeNetResult.datagram addr payload =>
    if addr == target_ip then
      let status_line := if payload != "" then splitlinesFirst payload else "EMPTY RESPONSE"
      if strContains status_line "SIP/2.0 200 OK" then "ok" else "failed"
    else "failed"

/-! ## State Store (`phone_status` and the update tail of `send_options`) -/

/-- One entry of the `phone_status` dictionary:
`{'state': 'unknown'/'ok'/'failed', 'since': timestamp-or-None}`. -/
structure PhoneStatus where
  state : String
  since : Option Int
deriving Repr, DecidableEq

/-- The `phone_status` dictionary, as an association list keyed by target
IP (Python dicts have unique keys and preserve insertion order). -/
abbrev StateStore : Type := List (String × PhoneStatus)

/-- Python `phone_status.get(target_ip, {'state': 'unknown', 'since': None})`. -/
def phone_status_get (store : StateStore) (target_ip : String) : PhoneStatus :=
  match List.find? (fun p => p.1 == target_ip) store with
  | some p => p.2
  | none => { state := "unknown", since := none }

/-- Python dict assignment `phone_status[target_ip] = v`: replace the
binding if the key exists, otherwise append it. -/
def phone_status_set (store : StateStore) (target_ip : String) (v : PhoneStatus) : StateStore :=
  match store with
  | [] => [(target_ip, v)]
  | (k, w) :: rest =>
    if k == target_ip then (k, v) :: rest
    else (k, w) :: phone_status_set rest target_ip v

/-- The status change logged by `send_options` when the stored state
differs from the run's result (the STATUS CHANGE record, line 166). -/
structure TransitionEvent where
  target : String
  old_status : String
  new_status : String
  time : Int
deriving Repr, DecidableEq

/-- The update at the tail of `send_options` (`sip_monitor_en.py`,
lines 159-168): read the previous record (with the `unknown` default),
and if the run's status differs, store the new status stamped `now` and
report the transition; otherwise leave the dictionary untouched. -/
def send_options_update (store : StateStore) (target_ip : String)
    (current_run_status : String) (now : Int) : StateStore × Option TransitionEvent :=
  let previous_status_info := phone_status_get store target_ip
  let previous_state := previous_status_info.state
  if current_run_status != previous_state then
    (phone_status_set store target_ip { state := current_run_status, since := some now },
     some { target := target_ip, old_status := previous_state,
            new_status := current_run_status, time := now })
  else (store, none)

/-- One whole `send_options` run: classify the network result, then update
the store. -/
def send_options (store : StateStore) (target_ip : String)
    (net : ProbeNetResult) (now : Int) : StateStore × Option TransitionEvent :=
  send_options_update store target_ip (send_options_classify target_ip net) now

/-- The startup initialisation of `phone_status` (`monitor_loop`,
line 183): every configured target starts as `{'state': 'unknown',
'since': None}`. -/
def init_phone_status (ips : List String) : StateStore :=
  ips.map (fun ip => (ip, { state := "unknown", since := none }))

/-- One probing cycle of `monitor_loop`: one `send_options` run per target.
Each run owns its own socket and touches only its own target's slot, so the
concurrent threads are modelled by running the per-target updates in
sequence; `net` and `now` give each target's network result and completion
time. -/
def run_cycle (store : StateStore) (net : String → ProbeNetResult)
    (now : String → Int) (targets : List String) : StateStore :=
  targets.foldl (fun s ip => (send_options s ip (net ip) (now ip)).1) store

/-- The spec's `ProbeOutcome` value: the abstract result of one probe. -/
inductive ProbeOutcome where
  | reachable
  | unreachable
deriving Repr, DecidableEq

/-- The status label a probe outcome is stored as
(`Reachable → 'ok'`, `Unreachable → 'failed'`). -/
def outcome_status : ProbeOutcome → String
  | ProbeOutcome.reachable => "ok"
  | ProbeOutcome.unreachable => "failed"

/-- The stores reachable from the startup initialisation by any sequence
of completed probes: either an abstract probe outcome applied through the
store update, or a full `send_options` run on a network result. -/
inductive ReachableStore : StateStore → Prop where
  | init : ReachableStore (init_phone_status TARGET_IPS)
  | step_outcome (s : StateStore) (target_ip : String) (outcome : ProbeOutcome) (now : Int) :
      ReachableStore s →
      ReachableStore (send_options_update s target_ip (outcome_status outcome) now).1
  | step_net (s : StateStore) (target_ip : String) (net : ProbeNetResult) (now : Int) :
      ReachableStore s →
      ReachableStore (send_options s target_ip net now).1

/-! ## Report formatting (`monitor_loop`, report block) -/

/-- Python's `f"{int(n):02d}"` for an integral value: zero-pad a
single-digit nonnegative number to two digits, print anything else in
full. -/
def fmt02 (n : Int) : String :=
  if 0 ≤ n ∧ n < 10 then "0" ++ toString n else toString n

/-- The `duration_str` computation of the report block (lines 237-239):
`m, s = divmod(d, 60); h, m = divmod(m, 60)` with floor-division
semantics, rendered `HH:MM:SS` with two-digit fields and unbounded
hours. -/
def duration_str (duration_seconds : Int) : String :=
  let m := Int.fdiv duration_seconds 60
  let s := Int.fmod duration_seconds 60
  let h := Int.fdiv m 60
  let m2 := Int.fmod m 60
  fmt02 h ++ ":" ++ fmt02 m2 ++ ":" ++ fmt02 s

/-- The `failed_phones_report_lines` list (lines 230-243): one line per
target whose state is `'failed'`; the Python truthiness test
`if failed_since:` sends both `None` and a zero timestamp to the
"exact failure time unknown" line.  `time.strftime` calendar rendering is
abstracted to the numeric timestamp. -/
def failed_phones_report_lines (store : StateStore) (current_time : Int) : List String :=
  store.filterMap (fun p =>
    if p.2.state == "failed" then
      some (match p.2.since with
        | some failed_since =>
          if failed_since == 0 then
            "- " ++ p.1 ++ ": unavailable (exact failure time unknown)"
          else
            "- " ++ p.1 ++ ": unavailable since " ++ toString failed_since ++
            " (duration: " ++ duration_str (current_time - failed_since) ++ ")"
        | none => "- " ++ p.1 ++ ": unavailable (exact failure time unknown)")
    else none)

/-- Is any target currently stored as `'failed'`? -/
def any_failed (store : StateStore) : Bool :=
  store.any (fun p => p.2.state == "failed")

/-! ## Alert sinks (`email_utils.py`, `telegram_utils.py`) -/

/-- The `send_email_alert` function of `email_utils.py` (lines 23-55).
`transport` models the outcome of the smtplib session (connect, starttls,
login, sendmail): `Except.error` is any exception it raises.  The
try/except around the session catches every exception and only logs it, so
the function itself never raises. -/
def send_email_alert (subject body : String) (transport : Except String Unit) :
    Except String Unit :=
  match subject, body, transport with
  | _, _, Except.ok _ => Except.ok ()
  | _, _, Except.error _e => Except.ok ()

/-- The `send_telegram_alert` function of `telegram_utils.py`
(lines 13-43).  `config_set` is whether a usable bot token and chat id are
configured (otherwise the function returns early); `post` models
`requests.post`: `Except.ok code` is a response with that HTTP status
code (200 and non-200 differ only in what is printed), `Except.error` is
any exception, caught by the try/except and only printed. -/
def send_telegram_alert (message : String) (config_set : Bool)
    (post : Except String Int) : Except String Unit :=
  match message, config_set, post with
  | _, false, _ => Except.ok ()
  | _, true, Except.ok _status_code => Except.ok ()
  | _, true, Except.error _e => Except.ok ()

/-- The `notify_alert` dispatcher of `sip_monitor_en.py` (lines 170-177):
run the email sink when email alerts are enabled, then the Telegram sink
when Telegram alerts are enabled and a message was supplied.  An exception
escaping either sink would abort the sequence and propagate to the caller;
the theorems below show none does. -/
def notify_alert (subject body : String) (telegram_message : Option String)
    (email_transport : Except String Unit) (telegram_config : Bool)
    (telegram_post : Except String Int) : Except String Unit := do
  let _ ← (if ENABLE_EMAIL_ALERTS then send_email_alert subject body email_transport
           else Except.ok ())
  match telegram_message with
  | some msg =>
    if ENABLE_TELEGRAM_ALERTS then send_telegram_alert msg telegram_config telegram_post
    else Except.ok ()
  | none => Except.ok ()

/-! ## Report trigger (`monitor_loop`, lines 227-254) -/

/-- Everything observable about one pass through the report block. -/
structure ReportResult where
  phone_status : StateStore
  last_report_time : Int
  fired : Bool
  sink_invoked : Bool
  sink_outcome : Except String Unit
deriving Repr

/-- The report block of `monitor_loop` (lines 227-254): when
`current_time - last_report_time >= report_interval` it builds the failed
list, invokes the alert sinks exactly when that list is nonempty, and
advances `last_report_time` to `current_time` either way; otherwise
nothing happens.  The status dictionary is only read. -/
def monitor_report_step (store : StateStore) (current_time last_report_time report_interval : Int)
    (email_transport : Except String Unit) (telegram_config : Bool)
    (telegram_post : Except String Int) : ReportResult :=
  if report_interval ≤ current_time - last_report_time then
    let lines := failed_phones_report_lines store current_time
    if lines.isEmpty then
      { phone_status := store, last_report_time := current_time,
        fired := true, sink_invoked := false, sink_outcome := Except.ok () }
    else
      let subject := "SIP Monitor Report: Unavailable phones (" ++ toString current_time ++ ")"
      let body := "The following SIP phones are currently unavailable:\n\n" ++
        String.intercalate "\n" lines ++ "\n\nThe monitor continues to run."
      let telegram_msg := "SIP Monitor: Unavailable phones:\n" ++ String.intercalate "\n" lines
      { phone_status := store, last_report_time := current_time,
        fired := true, sink_invoked := true,
        sink_outcome := notify_alert subject body (some telegram_msg)
          email_transport telegram_config telegram_post }
  else
    { phone_status := store, last_report_time := last_report_time,
      fired := false, sink_invoked := false, sink_outcome := Except.ok () }

/-! ## Cycle cadence (`monitor_loop`, lines 221-222 and 260-262) -/

/-- The sleep computation `wait_time = max(0, INTERVAL - elapsed_time)`. -/
def wait_time (interval elapsed_time : Int) : Int :=
  max 0 (interval - elapsed_time)

/-- Whether `monitor_loop` actually sleeps: `if wait_time > 0:
time.sleep(wait_time)`. -/
def performs_sleep (w : Int) : Bool :=
  decide (0 < w)

/-! ## The Russian script (`sip_monitor_ru.py`)

The same functions, translated independently from `sip_monitor_ru.py`;
only user-facing strings differ (the empty-response placeholder and the
report texts). -/

namespace Ru

/-- `create_options_message` of `sip_monitor_ru.py`, lines 70-90:
identifier draws. -/
def make_sip_identifiers (uuidSupply : Nat → String) (k : Nat) : SipIdentifiers :=
  { callId := uuidSupply (3 * k),
    branch := "z9hG4bK" ++ (uuidSupply (3 * k + 1)).take 8,
    tag := (uuidSupply (3 * k + 2)).take 8 }

/-- `create_options_message` of `sip_monitor_ru.py`, lines 76-90: the
request text. -/
def create_options_message (ids : SipIdentifiers) (target_ip : String)
    (target_port : Nat) (source_ip : String) (source_port : Nat) : String :=
  "OPTIONS sip:monitor@" ++ target_ip ++ ":" ++ toString target_port ++ " SIP/2.0\r\n" ++
  "Via: SIP/2.0/UDP " ++ source_ip ++ ":" ++ toString source_port ++
    ";branch=" ++ ids.branch ++ ";rport\r\n" ++
  "Max-Forwards: 70\r\n" ++
  "From: <sip:monitor@" ++ source_ip ++ ":" ++ toString source_port ++ ">;tag=" ++ ids.tag ++ "\r\n" ++
  "To: <sip:monitor@" ++ target_ip ++ ":" ++ toString target_port ++ ">\r\n" ++
  "Contact: <sip:monitor@" ++ source_ip ++ ":" ++ toString source_port ++ ">\r\n" ++
  "Call-ID: " ++ ids.callId ++ "\r\n" ++
  "CSeq: 1 OPTIONS\r\n" ++
  "User-Agent: " ++ USER_AGENT ++ "\r\n" ++
  "Accept: application/sdp\r\n" ++
  "Content-Length: 0\r\n" ++
  "\r\n"

/-- The classification of `send_options` in `sip_monitor_ru.py`
(lines 102-159); the empty-payload placeholder is the Russian
`"ПУСТОЙ ОТВЕТ"`. -/
def send_options_classify (target_ip : String) : ProbeNetResult → String
  | ProbeNetResult.sendError => "failed"
  | ProbeNetResult.timeout => "failed"
  | ProbeNetResult.recvError => "failed"
  | ProbeNetResult.datagram addr payload =>
    if addr == target_ip then
      let status_line := if payload != "" then splitlinesFirst payload else "ПУСТОЙ ОТВЕТ"
      if strContains status_line "SIP/2.0 200 OK" then "ok" else "failed"
    else "failed"

/-- The status-dictionary update of `send_options` in `sip_monitor_ru.py`
(lines 161-170). -/
def send_options_update (store : StateStore) (target_ip : String)
    (current_run_status : String) (now : Int) : StateStore × Option TransitionEvent :=
  let previous_status_info := phone_status_get store target_ip
  let previous_state := previous_status_info.state
  if current_run_status != previous_state then
    (phone_status_set store target_ip { state := current_run_status, since := some now },
     some { target := target_ip, old_status := previous_state,
            new_status := current_run_status, time := now })
  else (store, none)

/-- The `duration_str` computation of `sip_monitor_ru.py`
(lines 239-241). -/
def duration_str (duration_seconds : Int) : String :=
  let m := Int.fdiv duration_seconds 60
  let s := Int.fmod duration_seconds 60
  let h := Int.fdiv m 60
  let m2 := Int.fmod m 60
  fmt02 h ++ ":" ++ fmt02 m2 ++ ":" ++ fmt02 s

/-- The `failed_phones_report_lines` list of `sip_monitor_ru.py`
(lines 232-245), with the Russian report texts. -/
def failed_phones_report_lines (store : StateStore) (current_time : Int) : List String :=
  store.filterMap (fun p =>
    if p.2.state == "failed" then
      some (match p.2.since with
        | some failed_since =>
          if failed_since == 0 then
            "- " ++ p.1 ++ ": недоступен (точное время сбоя неизвестно)"
          else
            "- " ++ p.1 ++ ": недоступен с " ++ toString failed_since ++
            " (продолжительность: " ++ duration_str (current_time - failed_since) ++ ")"
        | none => "- " ++ p.1 ++ ": недоступен (точное время сбоя неизвестно)")
    else none)

/-- The `notify_alert` dispatcher of `sip_monitor_ru.py`
(lines 172-179); the sinks themselves are shared modules. -/
def notify_alert (subject body : String) (telegram_message : Option String)
    (email_transport : Except String Unit) (telegram_config : Bool)
    (telegram_post : Except String Int) : Except String Unit := do
  let _ ← (if ENABLE_EMAIL_ALERTS then send_email_alert subject body email_transport
           else Except.ok ())
  match telegram_message with
  | some msg =>
    if ENABLE_TELEGRAM_ALERTS then send_telegram_alert msg telegram_config telegram_post
    else Except.ok ()
  | none => Except.ok ()

/-- The report block of `monitor_loop` in `sip_monitor_ru.py`
(lines 229-256). -/
def monitor_report_step (store : StateStore) (current_time last_report_time report_interval : Int)
    (email_transport : Except String Unit) (telegram_config : Bool)
    (telegram_post : Except String Int) : ReportResult :=
  if report_interval ≤ current_time - last_report_time then
    let lines := failed_phones_report_lines store current_time
    if lines.isEmpty then
      { phone_status := store, last_report_time := current_time,
        fired := true, sink_invoked := false, sink_outcome := Except.ok () }
    else
      let subject := "SIP Monitor Report: Недоступные телефоны (" ++ toString current_time ++ ")"
      let body := "Следующие SIP телефоны в настоящее время недоступны:\n\n" ++
        String.intercalate "\n" lines ++ "\n\nМонитор продолжает работу."
      let telegram_msg := "SIP Monitor: Недоступные телефоны:\n" ++ String.intercalate "\n" lines
      { phone_status := store, last_report_time := current_time,
        fired := true, sink_invoked := true,
        sink_outcome := notify_alert subject body (some telegram_msg)
          email_transport telegram_config telegram_post }
  else
    { phone_status := store, last_report_time := last_report_time,
      fired := false, sink_invoked := false, sink_outcome := Except.ok () }

/-- The sleep computation of `sip_monitor_ru.py` (line 224). -/
def wait_time (interval elapsed_time : Int) : Int :=
  max 0 (interval - elapsed_time)

end Ru

/-! ## Helper lemmas -/

theorem phone_status_get_set_eq (store : StateStore) (ip : String) (v : PhoneStatus) :
    phone_status_get (phone_status_set store ip v) ip = v := by
  induction store with
  | nil => simp [phone_status_set, phone_status_get, List.find?]
  | cons hd tl ih =>
    obtain ⟨k, w⟩ := hd
    by_cases hk : (k == ip) = true
    · simp [phone_status_set, hk, phone_status_get, List.find?]
    · rw [show (phone_status_set ((k, w) :: tl) ip v) =
          (k, w) :: phone_status_set tl ip v by simp [phone_status_set, hk]]
      rw [phone_status_get, List.find?]
      simp only [hk]
      exact ih

theorem phone_status_get_set_ne (store : StateStore) (ip ip' : String) (v : PhoneStatus)
    (h : ip' ≠ ip) :
    phone_status_get (phone_status_set store ip v) ip' = phone_status_get store ip' := by
  induction store with
  | nil =>
    have hne : (ip == ip') = false := by
      simp only [beq_eq_false_iff_ne]
      exact fun he => h he.symm
    simp [phone_status_set, phone_status_get, List.find?, hne]
  | cons hd tl ih =>
    obtain ⟨k, w⟩ := hd
    by_cases hk : (k == ip) = true
    · have hk' : k = ip := by simpa using hk
      subst hk'
      have hne : (k == ip') = false := by
        simp only [beq_eq_false_iff_ne]
        exact fun he => h (he.symm)
      simp [phone_status_set, phone_status_get, List.find?, hne]
    · rw [show (phone_status_set ((k, w) :: tl) ip v) =
          (k, w) :: phone_status_set tl ip v by simp [phone_status_set, hk]]
      by_cases hk2 : (k == ip') = true
      · simp [phone_status_get, List.find?, hk2]
      · have hk2' : (k == ip') = false := by simpa using hk2
        simp only [phone_status_get, List.find?, hk2']
        exact ih

theorem mem_phone_status_set (store : StateStore) (ip : String) (v : PhoneStatus)
    (p : String × PhoneStatus) (h : p ∈ phone_status_set store ip v) :
    p = (ip, v) ∨ p ∈ store := by
  induction store with
  | nil =>
    simp [phone_status_set] at h
    exact Or.inl h
  | cons hd tl ih =>
    obtain ⟨k, w⟩ := hd
    by_cases hk : (k == ip) = true
    · have hk' : k = ip := by simpa using hk
      subst hk'
      simp only [phone_status_set, beq_self_eq_true, if_true] at h
      rcases List.mem_cons.mp h with h1 | h2
      · exact Or.inl h1
      · exact Or.inr (List.mem_cons_of_mem _ h2)
    · rw [show (phone_status_set ((k, w) :: tl) ip v) =
          (k, w) :: phone_status_set tl ip v by simp [phone_status_set, hk]] at h
      rcases List.mem_cons.mp h with h1 | h2
      · exact Or.inr (h1 ▸ List.mem_cons_self _ _)
      · rcases ih h2 with h3 | h4
        · exact Or.inl h3
        · exact Or.inr (List.mem_cons_of_mem _ h4)

theorem send_options_classify_ok_or_failed (target_ip : String) (r : ProbeNetResult) :
    send_options_classify target_ip r = "ok" ∨ send_options_classify target_ip r = "failed" := by
  cases r with
  | sendError => exact Or.inr rfl
  | timeout => exact Or.inr rfl
  | recvError => exact Or.inr rfl
  | datagram addr payload =>
    simp only [send_options_classify]
    split_ifs <;> simp

theorem outcome_status_ok_or_failed (o : ProbeOutcome) :
    outcome_status o = "ok" ∨ outcome_status o = "failed" := by
  cases o
  · exact Or.inl rfl
  · exact Or.inr rfl

theorem send_options_update_get_self (store : StateStore) (target_ip : String)
    (st : String) (now : Int) :
    (phone_status_get (send_options_update store target_ip st now).1 target_ip).state = st := by
  by_cases h : (st != (phone_status_get store target_ip).state) = true
  · simp only [send_options_update, h, if_true]
    rw [phone_status_get_set_eq]
  · have h' : (st != (phone_status_get store target_ip).state) = false := by
      simpa using h
    have he : st = (phone_status_get store target_ip).state := by
      simpa using h
    simp only [send_options_update, h', Bool.false_eq_true, if_false]
    exact he.symm

theorem send_options_update_get_other (store : StateStore) (target_ip ip : String)
    (st : String) (now : Int) (h : ip ≠ target_ip) :
    phone_status_get (send_options_update store target_ip st now).1 ip =
      phone_status_get store ip := by
  by_cases hc : (st != (phone_status_get store target_ip).state) = true
  · simp only [send_options_update, hc, if_true]
    exact phone_status_get_set_ne store target_ip ip _ h
  · have hc' : (st != (phone_status_get store target_ip).state) = false := by
      simpa using hc
    simp only [send_options_update, hc', Bool.false_eq_true, if_false]

theorem failed_lines_isEmpty (store : StateStore) (current_time : Int) :
    (failed_phones_report_lines store current_time).isEmpty = !(any_failed store) := by
  induction store with
  | nil => rfl
  | cons hd tl ih =>
    by_cases h : hd.2.state = "failed"
    · simp [failed_phones_report_lines, any_failed, h, List.filterMap_cons]
    · have hb : (hd.2.state == "failed") = false := by
        simpa using h
      simpa [failed_phones_report_lines, any_failed, h, hb, List.filterMap_cons] using ih

theorem ru_failed_lines_isEmpty (store : StateStore) (current_time : Int) :
    (Ru.failed_phones_report_lines store current_time).isEmpty = !(any_failed store) := by
  induction store with
  | nil => rfl
  | cons hd tl ih =>
    by_cases h : hd.2.state = "failed"
    · simp [Ru.failed_phones_report_lines, any_failed, h, List.filterMap_cons]
    · have hb : (hd.2.state == "failed") = false := by
        simpa using h
      simpa [Ru.failed_phones_report_lines, any_failed, h, hb, List.filterMap_cons] using ih

theorem notify_alert_eq_ok (subject body : String) (telegram_message : Option String)
    (email_transport : Except String Unit) (telegram_config : Bool)
    (telegram_post : Except String Int) :
    notify_alert subject body telegram_message email_transport telegram_config telegram_post =
      Except.ok () := by
  cases email_transport with
  | ok u =>
    cases telegram_message with
    | none => rfl
    | some msg =>
      cases telegram_config with
      | false => cases telegram_post <;> rfl
      | true => cases telegram_post <;> rfl
  | error e =>
    cases telegram_message with
    | none => rfl
    | some msg =>
      cases telegram_config with
      | false => cases telegram_post <;> rfl
      | true => cases telegram_post <;> rfl

theorem mem_send_options_update (s : StateStore) (t st : String) (now : Int)
    (p : String × PhoneStatus) (hp : p ∈ (send_options_update s t st now).1) :
    p = (t, { state := st, since := some now }) ∨ p ∈ s := by
  by_cases hc : (st != (phone_status_get s t).state) = true
  · simp only [send_options_update, hc, if_true] at hp
    exact mem_phone_status_set s t _ p hp
  · have hc' : (st != (phone_status_get s t).state) = false := by simpa using hc
    simp only [send_options_update, hc', Bool.false_eq_true, if_false] at hp
    exact Or.inr hp

theorem run_cycle_state_known (targets : List String) :
    ∀ (store : StateStore) (net : String → ProbeNetResult) (now : String → Int)
      (ip : String),
      (ip ∈ targets ∨ (phone_status_get store ip).state ≠ "unknown") →
      (phone_status_get (run_cycle store net now targets) ip).state ≠ "unknown" := by
  induction targets with
  | nil =>
    intro store net now ip h
    rcases h with h | h
    · exact absurd h (List.not_mem_nil ip)
    · simpa [run_cycle] using h
  | cons t ts ih =>
    intro store net now ip h
    have hstep : run_cycle store net now (t :: ts) =
        run_cycle (send_options store t (net t) (now t)).1 net now ts := rfl
    rw [hstep]
    have hself : (phone_status_get (send_options store t (net t) (now t)).1 t).state =
        send_options_classify t (net t) :=
      send_options_update_get_self store t (send_options_classify t (net t)) (now t)
    have hclass : send_options_classify t (net t) ≠ "unknown" := by
      rcases send_options_classify_ok_or_failed t (net t) with h1 | h1 <;> simp [h1]
    rcases h with hmem | hst
    · rcases List.mem_cons.mp hmem with he | hts
      · subst he
        apply ih
        right
        rw [hself]
        exact hclass
      · exact ih _ _ _ _ (Or.inl hts)
    · apply ih
      right
      by_cases he : ip = t
      · subst he
        rw [hself]
        exact hclass
      · have hoth : phone_status_get (send_options store t (net t) (now t)).1 ip =
            phone_status_get store ip :=
          send_options_update_get_other store t ip (send_options_classify t (net t)) (now t) he
        rw [hoth]
        exact hst

/-! ## Claim theorems -/

/-- C1: every probe run is classified in order: any transport-level error
(resolution, socket creation, send), a receive timeout, or a receive-side
error yields `'failed'`; a datagram from an address other than the probed
target yields `'failed'`; a datagram from the target's address yields
`'ok'` exactly when the first line of the decoded text contains
`"SIP/2.0 200 OK"` (empty payloads, whose placeholder status line lacks
the substring, yield `'failed'`). -/
theorem c1_probe_classification (target_ip addr payload : String) :
    send_options_classify target_ip ProbeNetResult.sendError = "failed" ∧
    send_options_classify target_ip ProbeNetResult.timeout = "failed" ∧
    send_options_classify target_ip ProbeNetResult.recvError = "failed" ∧
    send_options_classify target_ip (ProbeNetResult.datagram addr payload) =
      (if addr = target_ip ∧ payload ≠ "" ∧
          strContains (splitlinesFirst payload) "SIP/2.0 200 OK" = true
       then "ok" else "failed") := by
  refine ⟨rfl, rfl, rfl, ?_⟩
  by_cases ha : addr = target_ip
  · by_cases hp : payload = ""
    · subst hp
      have hno : strContains "EMPTY RESPONSE" "SIP/2.0 200 OK" = false := by decide
      simp [send_options_classify, ha, hno]
    · by_cases hc : strContains (splitlinesFirst payload) "SIP/2.0 200 OK" = true
      · simp [send_options_classify, ha, hp, hc]
      · have hc' : strContains (splitlinesFirst payload) "SIP/2.0 200 OK" = false := by
          simpa using hc
        simp [send_options_classify, ha, hp, hc']
  · simp [send_options_classify, ha]

/-- C2: a probe outcome is stored as `Reachable → 'ok'`,
`Unreachable → 'failed'`; when the mapped status equals the stored state
the dictionary is untouched and no transition is reported, and when it
differs the target's record becomes exactly the new status stamped `now`
and a `TransitionEvent` with the target, old state, new state and `now` is
produced. -/
theorem c2_state_transition (store : StateStore) (target_ip : String)
    (outcome : ProbeOutcome) (now : Int) :
    (outcome_status ProbeOutcome.reachable = "ok" ∧
     outcome_status ProbeOutcome.unreachable = "failed") ∧
    send_options_update store target_ip (outcome_status outcome) now =
      (if outcome_status outcome = (phone_status_get store target_ip).state
       then (store, none)
       else
        (phone_status_set store target_ip
           { state := outcome_status outcome, since := some now },
         some { target := target_ip,
                old_status := (phone_status_get store target_ip).state,
                new_status := outcome_status outcome, time := now })) ∧
    phone_status_get (send_options_update store target_ip (outcome_status outcome) now).1
        target_ip =
      (if outcome_status outcome = (phone_status_get store target_ip).state
       then phone_status_get store target_ip
       else { state := outcome_status outcome, since := some now }) := by
  refine ⟨⟨rfl, rfl⟩, ?_, ?_⟩
  · by_cases h : outcome_status outcome = (phone_status_get store target_ip).state
    · simp [send_options_update, h]
    · simp [send_options_update, h]
  · by_cases h : outcome_status outcome = (phone_status_get store target_ip).state
    · simp [send_options_update, h]
    · simp [send_options_update, h, phone_status_get_set_eq]

/-- C3: in every store reachable from the startup initialisation by any
sequence of completed probes, a target's `since` field is `None` exactly
when its state is `'unknown'`. -/
theorem c3_since_iff_unknown (s : StateStore) (h : ReachableStore s) :
    ∀ p ∈ s, (p.2.since = none ↔ p.2.state = "unknown") := by
  induction h with
  | init =>
    intro p hp
    simp only [init_phone_status, List.mem_map] at hp
    obtain ⟨ip, _, rfl⟩ := hp
    simp
  | step_outcome s t o now hs ih =>
    intro p hp
    rcases mem_send_options_update s t (outcome_status o) now p hp with he | hin
    · rcases outcome_status_ok_or_failed o with h1 | h1 <;> simp [he, h1]
    · exact ih p hin
  | step_net s t net now hs ih =>
    intro p hp
    rcases mem_send_options_update s t (send_options_classify t net) now p hp with he | hin
    · rcases send_options_classify_ok_or_failed t net with h1 | h1 <;> simp [he, h1]
    · exact ih p hin

/-- Witness for C3, at a store reached by two probe applications. -/
theorem c3_witness :
    ((⟨"172.16.31.144", { state := "ok", since := some 7 }⟩ : String × PhoneStatus).2.since =
        none ↔
      (⟨"172.16.31.144", { state := "ok", since := some 7 }⟩ : String × PhoneStatus).2.state =
        "unknown") :=
  c3_since_iff_unknown
    (send_options_update (init_phone_status TARGET_IPS) "172.16.31.144"
      (outcome_status ProbeOutcome.reachable) 7).1
    (ReachableStore.step_outcome _ _ _ _ ReachableStore.init)
    ⟨"172.16.31.144", { state := "ok", since := some 7 }⟩
    (by decide)

/-- C7: the probe executor classifies every control path as `'ok'` or
`'failed'` — no path leaves the run status `'unknown'` — and after one
completed cycle from the startup initialisation every configured target's
stored state is not `'unknown'`. -/
theorem c7_no_unknown_after_first_cycle (targets : List String)
    (net : String → ProbeNetResult) (now : String → Int) (ip : String)
    (hmem : ip ∈ targets) :
    (∀ (t : String) (r : ProbeNetResult),
       send_options_classify t r = "ok" ∨ send_options_classify t r = "failed") ∧
    (phone_status_get (run_cycle (init_phone_status targets) net now targets) ip).state ≠
      "unknown" :=
  ⟨send_options_classify_ok_or_failed,
   run_cycle_state_known targets (init_phone_status targets) net now ip (Or.inl hmem)⟩

/-- Witness for C7: one cycle over the configured targets with every
probe timing out. -/
theorem c7_witness :
    ("172.16.31.144" ∈ TARGET_IPS) ∧
    (phone_status_get
        (run_cycle (init_phone_status TARGET_IPS) (fun _ => ProbeNetResult.timeout)
          (fun _ => 100) TARGET_IPS)
        "172.16.31.144").state ≠ "unknown" :=
  ⟨by decide,
   (c7_no_unknown_after_first_cycle TARGET_IPS (fun _ => ProbeNetResult.timeout)
      (fun _ => 100) "172.16.31.144" (by decide)).2⟩

/-- C4: the report check fires exactly when
`current_time - last_report_time >= report_interval`; on fire the alert
sink is invoked exactly when some target's state is `'failed'` (so with no
failed target the sink is never invoked, for any `current_time`), and
`last_report_time` advances to `current_time` whether or not a
notification was sent. -/
theorem c4_report_trigger (store : StateStore)
    (current_time last_report_time report_interval : Int)
    (email_transport : Except String Unit) (telegram_config : Bool)
    (telegram_post : Except String Int) :
    ((monitor_report_step store current_time last_report_time report_interval
        email_transport telegram_config telegram_post).fired =
      decide (report_interval ≤ current_time - last_report_time)) ∧
    ((monitor_report_step store current_time last_report_time report_interval
        email_transport telegram_config telegram_post).sink_invoked =
      (decide (report_interval ≤ current_time - last_report_time) && any_failed store)) ∧
    ((monitor_report_step store current_time last_report_time report_interval
        email_transport telegram_config telegram_post).last_report_time =
      if report_interval ≤ current_time - last_report_time then current_time
      else last_report_time) := by
  by_cases hf : report_interval ≤ current_time - last_report_time
  · by_cases ha : any_failed store = true
    · have hl : (failed_phones_report_lines store current_time).isEmpty = false := by
        rw [failed_lines_isEmpty, ha]
        rfl
      simp [monitor_report_step, hf, hl, ha]
    · have ha' : any_failed store = false := by simpa using ha
      have hl : (failed_phones_report_lines store current_time).isEmpty = true := by
        rw [failed_lines_isEmpty, ha']
        rfl
      simp [monitor_report_step, hf, hl, ha']
  · simp [monitor_report_step, hf]

/-- C5: the elapsed-duration formatter renders `3600*h + 60*m + s` seconds
as zero-padded `HH:MM:SS` with unbounded hours; in particular a target
failed since `T` renders at `T + 3661` as `"01:01:01"` and at `T + 90000`
as `"25:00:00"` (hours are not wrapped into days). -/
theorem c5_duration_format (since h m s : Int) (_hh : 0 ≤ h) (hm0 : 0 ≤ m)
    (hm : m < 60) (hs0 : 0 ≤ s) (hs : s < 60) :
    duration_str ((since + (3600 * h + 60 * m + s)) - since) =
      fmt02 h ++ ":" ++ fmt02 m ++ ":" ++ fmt02 s ∧
    duration_str ((since + 3661) - since) = "01:01:01" ∧
    duration_str ((since + 90000) - since) = "25:00:00" := by
  have hu : ∀ d : Int, duration_str d =
      fmt02 (Int.fdiv (Int.fdiv d 60) 60) ++ ":" ++
        fmt02 (Int.fmod (Int.fdiv d 60) 60) ++ ":" ++ fmt02 (Int.fmod d 60) :=
    fun d => rfl
  have e1 : (since + (3600 * h + 60 * m + s)) - since = 3600 * h + 60 * m + s := by ring
  have e2 : (since + 3661) - since = 3661 := by ring
  have e3 : (since + 90000) - since = 90000 := by ring
  refine ⟨?_, ?_, ?_⟩
  · rw [e1, hu]
    have d60 : Int.fdiv (3600 * h + 60 * m + s) 60 = 60 * h + m := by
      rw [Int.fdiv_eq_ediv _ (by norm_num : (0:Int) ≤ 60)]
      omega
    have dm60 : Int.fmod (3600 * h + 60 * m + s) 60 = s := by
      rw [Int.fmod_eq_emod _ (by norm_num : (0:Int) ≤ 60)]
      omega
    rw [d60, dm60]
    have h60 : Int.fdiv (60 * h + m) 60 = h := by
      rw [Int.fdiv_eq_ediv _ (by norm_num : (0:Int) ≤ 60)]
      omega
    have m60 : Int.fmod (60 * h + m) 60 = m := by
      rw [Int.fmod_eq_emod _ (by norm_num : (0:Int) ≤ 60)]
      omega
    rw [h60, m60]
  · rw [e2]
    rfl
  · rw [e3]
    rfl

/-- Witness for C5, at two hours, five minutes, seven seconds. -/
theorem c5_witness :
    ((0:Int) ≤ 2 ∧ (0:Int) ≤ 5 ∧ (5:Int) < 60 ∧ (0:Int) ≤ 7 ∧ (7:Int) < 60) ∧
    duration_str ((0 + (3600 * 2 + 60 * 5 + 7)) - 0) =
      fmt02 2 ++ ":" ++ fmt02 5 ++ ":" ++ fmt02 7 :=
  ⟨⟨by decide, by decide, by decide, by decide, by decide⟩,
   (c5_duration_format 0 2 5 7 (by decide) (by decide) (by decide) (by decide)
      (by decide)).1⟩

/-- C6: the pre-cycle sleep is exactly `max(0, interval - elapsed)`: when
the cycle's duration is below the interval the monitor sleeps the
remainder, and when it meets or exceeds the interval the wait is zero and
no sleep call is performed. -/
theorem c6_cycle_sleep (interval elapsed_time : Int) :
    wait_time interval elapsed_time = max 0 (interval - elapsed_time) ∧
    wait_time interval elapsed_time =
      (if elapsed_time < interval then interval - elapsed_time else 0) ∧
    performs_sleep (wait_time interval elapsed_time) = decide (elapsed_time < interval) := by
  refine ⟨rfl, ?_, ?_⟩
  · by_cases h : elapsed_time < interval
    · rw [if_pos h]
      unfold wait_time
      omega
    · rw [if_neg h]
      unfold wait_time
      omega
  · unfold performs_sleep wait_time
    rw [decide_eq_decide]
    omega

/-- C8: a failure inside an alert-sink call (SMTP exception, Telegram
HTTP/network exception) is caught inside the sink and swallowed: for every
subject/body/message and every transport outcome the sinks and the
notification dispatcher return normally, and the report step never
modifies any target's stored record. -/
theorem c8_sink_failures_swallowed (subject body msg : String)
    (telegram_message : Option String) (email_transport : Except String Unit)
    (telegram_config : Bool) (telegram_post : Except String Int)
    (store : StateStore) (current_time last_report_time report_interval : Int) :
    send_email_alert subject body email_transport = Except.ok () ∧
    send_telegram_alert msg telegram_config telegram_post = Except.ok () ∧
    notify_alert subject body telegram_message email_transport telegram_config
        telegram_post = Except.ok () ∧
    (monitor_report_step store current_time last_report_time report_interval
        email_transport telegram_config telegram_post).phone_status = store ∧
    (monitor_report_step store current_time last_report_time report_interval
        email_transport telegram_config telegram_post).sink_outcome = Except.ok () := by
  refine ⟨?_, ?_, notify_alert_eq_ok _ _ _ _ _ _, ?_, ?_⟩
  · cases email_transport <;> rfl
  · cases telegram_config <;> cases telegram_post <;> rfl
  · by_cases hf : report_interval ≤ current_time - last_report_time
    · by_cases hl : (failed_phones_report_lines store current_time).isEmpty = true
      · simp [monitor_report_step, hf, hl]
      · have hl' : (failed_phones_report_lines store current_time).isEmpty = false := by
          simpa using hl
        simp [monitor_report_step, hf, hl']
    · simp [monitor_report_step, hf]
  · by_cases hf : report_interval ≤ current_time - last_report_time
    · by_cases hl : (failed_phones_report_lines store current_time).isEmpty = true
      · simp [monitor_report_step, hf, hl]
      · have hl' : (failed_phones_report_lines store current_time).isEmpty = false := by
          simpa using hl
        simp [monitor_report_step, hf, hl', notify_alert_eq_ok]
    · simp [monitor_report_step, hf]

/-- The freshness property asserted of the message builder: as long as the
underlying UUID supply never repeats a string (any two distinct draws
differ, which is all `uuid.uuid4()` provides), any two distinct
invocations produce pairwise different Call-ID, branch and tag values. -/
def identifiers_always_fresh : Prop :=
  ∀ (supply : Nat → String), Function.Injective supply →
    ∀ (j k : Nat), j ≠ k →
    (make_sip_identifiers supply j).callId ≠ (make_sip_identifiers supply k).callId ∧
    (make_sip_identifiers supply j).branch ≠ (make_sip_identifiers supply k).branch ∧
    (make_sip_identifiers supply j).tag ≠ (make_sip_identifiers supply k).tag

/-- A UUID-string supply that never repeats a value (the `n`-th draw ends
in `n` repetitions of `x`), yet all of whose draws share their first
eight characters. -/
def collidingUuidSupply (n : Nat) : String :=
  "aaaaaaaa-" ++ String.mk (List.replicate n 'x')

/-- C9 counterexample: the builder keeps only the first 8 characters of
the branch and tag UUID draws, so two invocations backed by an
injective UUID supply — no draw ever repeated — can still produce the
same `Via` branch parameter: under `collidingUuidSupply`, invocations 0
and 1 both produce the branch `"z9hG4bKaaaaaaaa"`. -/
theorem c9_counterexample : ¬ identifiers_always_fresh := by
  intro h
  have hinj : Function.Injective collidingUuidSupply := by
    intro a b hab
    have hlen := congrArg (fun s => s.data.length) hab
    simpa [collidingUuidSupply] using hlen
  have hc := h collidingUuidSupply hinj 0 1 (by decide)
  exact hc.2.1 (by decide)

/-- C9 (amended): distinct Call-ID UUID draws always give distinct
Call-ID values; the branch and tag values, which keep only the first
eight characters of their UUID draws, are distinct whenever those
eight-character prefixes differ (distinct draws alone do not suffice). -/
theorem c9_amended_fresh_identifiers (supply : Nat → String) (j k : Nat)
    (hcall : supply (3 * j) ≠ supply (3 * k))
    (hbranch : (supply (3 * j + 1)).take 8 ≠ (supply (3 * k + 1)).take 8)
    (htag : (supply (3 * j + 2)).take 8 ≠ (supply (3 * k + 2)).take 8) :
    (make_sip_identifiers supply j).callId ≠ (make_sip_identifiers supply k).callId ∧
    (make_sip_identifiers supply j).branch ≠ (make_sip_identifiers supply k).branch ∧
    (make_sip_identifiers supply j).tag ≠ (make_sip_identifiers supply k).tag := by
  simp only [make_sip_identifiers]
  refine ⟨hcall, ?_, htag⟩
  intro he
  apply hbranch
  have hd := congrArg String.data he
  simp only [make_sip_identifiers, String.data_append] at hd
  exact String.ext (List.append_cancel_left hd)

/-- Witness for the amended C9, with the supply printing its index. -/
theorem c9_amended_witness :
    (make_sip_identifiers (fun n => toString n) 0).callId ≠
      (make_sip_identifiers (fun n => toString n) 1).callId ∧
    (make_sip_identifiers (fun n => toString n) 0).branch ≠
      (make_sip_identifiers (fun n => toString n) 1).branch ∧
    (make_sip_identifiers (fun n => toString n) 0).tag ≠
      (make_sip_identifiers (fun n => toString n) 1).tag :=
  c9_amended_fresh_identifiers (fun n => toString n) 0 1 (by decide) (by decide)
    (by decide)

theorem ru_notify_alert_eq_ok (subject body : String) (telegram_message : Option String)
    (email_transport : Except String Unit) (telegram_config : Bool)
    (telegram_post : Except String Int) :
    Ru.notify_alert subject body telegram_message email_transport telegram_config
        telegram_post = Except.ok () :=
  notify_alert_eq_ok subject body telegram_message email_transport telegram_config
    telegram_post

/-- C10: the English and Russian monitor scripts implement the same
monitoring logic: identifier drawing, message construction, response
classification, the state-transition update, the report-fire condition
and its observable effects, duration formatting and the sleep computation
agree on all inputs; only user-facing report strings differ. -/
theorem c10_en_ru_equivalence :
    (∀ (supply : Nat → String) (k : Nat),
       make_sip_identifiers supply k = Ru.make_sip_identifiers supply k) ∧
    (∀ (ids : SipIdentifiers) (tip : String) (tp : Nat) (sip : String) (sp : Nat),
       create_options_message ids tip tp sip sp =
         Ru.create_options_message ids tip tp sip sp) ∧
    (∀ (t : String) (r : ProbeNetResult),
       send_options_classify t r = Ru.send_options_classify t r) ∧
    (∀ (store : StateStore) (ip st : String) (now : Int),
       send_options_update store ip st now = Ru.send_options_update store ip st now) ∧
    (∀ d : Int, duration_str d = Ru.duration_str d) ∧
    (∀ interval elapsed : Int, wait_time interval elapsed = Ru.wait_time interval elapsed) ∧
    (∀ (store : StateStore) (ct lt ri : Int) (eT : Except String Unit) (cfg : Bool)
       (post : Except String Int),
       (monitor_report_step store ct lt ri eT cfg post).fired =
         (Ru.monitor_report_step store ct lt ri eT cfg post).fired ∧
       (monitor_report_step store ct lt ri eT cfg post).sink_invoked =
         (Ru.monitor_report_step store ct lt ri eT cfg post).sink_invoked ∧
       (monitor_report_step store ct lt ri eT cfg post).last_report_time =
         (Ru.monitor_report_step store ct lt ri eT cfg post).last_report_time ∧
       (monitor_report_step store ct lt ri eT cfg post).phone_status =
         (Ru.monitor_report_step store ct lt ri eT cfg post).phone_status ∧
       (monitor_report_step store ct lt ri eT cfg post).sink_outcome =
         (Ru.monitor_report_step store ct lt ri eT cfg post).sink_outcome) := by
  refine ⟨fun _ _ => rfl, fun _ _ _ _ _ => rfl, ?_, fun _ _ _ _ => rfl, fun _ => rfl,
    fun _ _ => rfl, ?_⟩
  · intro t r
    cases r with
    | sendError => rfl
    | timeout => rfl
    | recvError => rfl
    | datagram addr payload =>
      by_cases ha : (addr == t) = true
      · by_cases hp : payload = ""
        · have h1 : strContains "EMPTY RESPONSE" "SIP/2.0 200 OK" = false := by decide
          have h2 : strContains "ПУСТОЙ ОТВЕТ" "SIP/2.0 200 OK" = false := by decide
          simp [send_options_classify, Ru.send_options_classify, ha, hp, h1, h2]
        · simp [send_options_classify, Ru.send_options_classify, ha, hp]
      · have ha' : (addr == t) = false := by simpa using ha
        simp [send_options_classify, Ru.send_options_classify, ha']
  · intro store ct lt ri eT cfg post
    by_cases hf : ri ≤ ct - lt
    · by_cases ha : any_failed store = true
      · have hl : (failed_phones_report_lines store ct).isEmpty = false := by
          rw [failed_lines_isEmpty, ha]
          rfl
        have hlr : (Ru.failed_phones_report_lines store ct).isEmpty = false := by
          rw [ru_failed_lines_isEmpty, ha]
          rfl
        simp [monitor_report_step, Ru.monitor_report_step, hf, hl, hlr,
          notify_alert_eq_ok, ru_notify_alert_eq_ok]
      · have ha' : any_failed store = false := by simpa using ha
        have hl : (failed_phones_report_lines store ct).isEmpty = true := by
          rw [failed_lines_isEmpty, ha']
          rfl
        have hlr : (Ru.failed_phones_report_lines store ct).isEmpty = true := by
          rw [ru_failed_lines_isEmpty, ha']
          rfl
        simp [monitor_report_step, Ru.monitor_report_step, hf, hl, hlr]
    · simp [monitor_report_step, Ru.monitor_report_step, hf]

end SipMonitor

